import Mathlib

/-!
Shallow embedding of the Medical Deep-Research chat frontend
(`src/frontend/src/...` and the unnamed component files), covering:

* the data model of `src/frontend/src/types/index.ts` (`Source`,
  `ChatMessage`, `ChatResponse`);
* `chatService.sendMessage` of `src/frontend/src/services/api.ts`;
* the `WebSocketService` reconnect logic of the same file;
* the `useChat` hook (`src/unnamed/part_002`): `sendMessage`, the
  WebSocket `onMessage` handler, the REST fallback branch and the
  catch branch;
* `ChatInterface.handleSubmit` and `FileUpload.onDrop`
  (`src/unnamed/part_000`);
* `App.sendMessage` and the two source-list renderers
  (`src/frontend/src/App.tsx`, `src/unnamed/part_001`).

React `useState` state is modelled as explicit records; a handler is a
pure function from the pre-state (plus the nondeterministic inputs the
browser supplies: fresh ids, timestamps, transport outcomes) to the
post-state together with the list of outbound transport calls it makes.
JavaScript `String.prototype.trim` is modelled by the executable
`jsTrim` (strip leading/trailing whitespace), and the emptiness test
`!s.trim()` by `jsTrim s = ""`.
-/

namespace MedicalChat

/-- Model of JavaScript `String.prototype.trim`: strip leading and
trailing whitespace. (Lean's built-in `String.trim` does the same but is
not kernel-reducible, so the embedding uses this executable form.) -/
def jsTrim (s : String) : String :=
  String.mk (((s.data.dropWhile Char.isWhitespace).reverse.dropWhile Char.isWhitespace).reverse)

/-- Evidence source entry, from `Source` in `src/frontend/src/types/index.ts`:
`{title, url, domain, type: 'web' | 'document', snippet?}`. -/
structure Source where
  title : String
  url : String
  domain : String
  type : String
  snippet : Option String := none
  deriving Repr, DecidableEq

/-- Response of the chat endpoint, from `ChatResponse` in
`src/frontend/src/types/index.ts`: `{response, sources, session_id, timestamp}`. -/
structure ChatResponse where
  response : String
  sources : List Source
  session_id : String
  timestamp : String
  deriving Repr, DecidableEq

/-- Body posted to `/api/chat` by `chatService.sendMessage`
(`src/frontend/src/services/api.ts`, lines 44-49); `session_id` is the
optional `sessionId?` parameter (`App.tsx` posts without it). -/
structure ChatRequest where
  message : String
  session_id : Option String
  include_web_search : Bool
  include_local_search : Bool
  deriving Repr, DecidableEq

/-- Message sent over the WebSocket by `useChat.sendMessage`
(`src/unnamed/part_002`, lines 84-89). -/
structure WsChatMessage where
  type : String
  message : String
  include_web_search : Bool
  include_local_search : Bool
  deriving Repr, DecidableEq

/-- Incoming WebSocket message, from `WebSocketMessage` in
`src/frontend/src/types/index.ts`: `{type, message?, data?}`; for
`type = "response"` the `data` field carries a chat-endpoint-shaped payload. -/
structure WsIncoming where
  type : String
  message : Option String := none
  data : Option ChatResponse := none
  deriving Repr, DecidableEq

/-- Conversation entry, from `ChatMessage` in
`src/frontend/src/types/index.ts`. The TS `isLoading?: boolean` is
optional and absent means falsy, modelled by default `false`;
`timestamp` (a JS `Date`) is modelled as epoch milliseconds. -/
structure ChatMessage where
  id : String
  message : String
  response : Option String := none
  sources : Option (List Source) := none
  timestamp : Nat
  isUser : Bool
  isLoading : Bool := false
  deriving Repr, DecidableEq

/-- State owned by the `useChat` hook (`src/unnamed/part_002`):
the `messages` list and the global `isLoading` flag. -/
structure ChatState where
  messages : List ChatMessage
  isLoading : Bool
  deriving Repr, DecidableEq

/-- An outbound transport call made while handling a submission:
either a WebSocket send or a REST post to `/api/chat`. -/
inductive TransportCall where
  | wsSend (m : WsChatMessage)
  | restPost (r : ChatRequest)
  deriving Repr, DecidableEq

/-- Embedding of `chatService.sendMessage`
(`src/frontend/src/services/api.ts`, lines 38-51): builds the request body
`{message, session_id, include_web_search, include_local_search}`, posts it
(the HTTP layer is the abstract `post`), and returns the response data
unchanged. -/
def chatService.sendMessage (post : ChatRequest → ChatResponse)
    (message : String) (sessionId : Option String)
    (includeWebSearch includeLocalSearch : Bool) : ChatResponse :=
  post { message := message
         session_id := sessionId
         include_web_search := includeWebSearch
         include_local_search := includeLocalSearch }

/-- A rendered source card in `ChatMessage` (`src/unnamed/part_001`):
`<SourceCard source=... index=...>` with the displayed citation label. -/
structure SourceCard where
  source : Source
  index : Nat
  deriving Repr, DecidableEq

/-- Source-list rendering of the `ChatMessage` component
(`src/unnamed/part_001`, lines 45-47):
`sources.map((source, index) => SourceCard source index+1)`. -/
def ChatMessageComponent.renderSourceCards (sources : List Source) : List SourceCard :=
  sources.enum.map fun p => { source := p.2, index := p.1 + 1 }

/-- Source-list rendering of `App` (`src/frontend/src/App.tsx`, lines 85-95):
each source is rendered as a link labelled `[index + 1]`. -/
def App.renderSourceLinks (sources : List Source) : List (Nat × Source) :=
  sources.enum.map fun p => (p.1 + 1, p.2)

/-- Fresh values generated inside `useChat.sendMessage`
(`src/unnamed/part_002`, lines 63-76): the two `Date.now()`/random ids and
timestamps used for the user message and the placeholder. -/
structure FreshTurnIds where
  userId : String
  aiId : String
  userTimestamp : Nat
  aiTimestamp : Nat
  deriving Repr, DecidableEq

/-- The `userMessage` literal of `useChat.sendMessage`
(`src/unnamed/part_002`, lines 63-68): a user entry carrying the trimmed
query text. -/
def mkUserMessage (fresh : FreshTurnIds) (message : String) : ChatMessage :=
  { id := fresh.userId
    message := jsTrim message
    timestamp := fresh.userTimestamp
    isUser := true }

/-- The `aiMessage` literal of `useChat.sendMessage`
(`src/unnamed/part_002`, lines 70-76): the loading assistant placeholder. -/
def mkAiMessage (fresh : FreshTurnIds) : ChatMessage :=
  { id := fresh.aiId
    message := ""
    timestamp := fresh.aiTimestamp
    isUser := false
    isLoading := true }

/-- Append step of `useChat.sendMessage` (`src/unnamed/part_002`,
lines 63-78): `setMessages(prev => [...prev, userMessage, aiMessage])`. -/
def appendTurnMessages (fresh : FreshTurnIds) (message : String)
    (prev : List ChatMessage) : List ChatMessage :=
  prev ++ [mkUserMessage fresh message, mkAiMessage fresh]

/-- WebSocket response branch of the `useChat` `onMessage` handler
(`src/unnamed/part_002`, lines 28-41): copy the list, and if the last
message exists and is loading, mutate it in place with the payload's
`response` and `sources` and clear its loading mark; then
`setIsLoading(false)`. -/
def wsResponseHandler (response : ChatResponse) (st : ChatState) : ChatState :=
  { messages :=
      match st.messages.getLast? with
      | some lastMessage =>
          if lastMessage.isLoading then
            st.messages.dropLast ++
              [{ lastMessage with
                 isLoading := false
                 response := some response.response
                 sources := some response.sources }]
          else st.messages
      | none => st.messages
    isLoading := false }

/-- REST fallback response handling of `useChat.sendMessage`
(`src/unnamed/part_002`, lines 99-111): the same last-message update as the
WebSocket branch, followed by `setIsLoading(false)`. -/
def restResponseHandler (response : ChatResponse) (st : ChatState) : ChatState :=
  { messages :=
      match st.messages.getLast? with
      | some lastMessage =>
          if lastMessage.isLoading then
            st.messages.dropLast ++
              [{ lastMessage with
                 isLoading := false
                 response := some response.response
                 sources := some response.sources }]
          else st.messages
      | none => st.messages
    isLoading := false }

/-- Catch branch of `useChat.sendMessage` (`src/unnamed/part_002`,
lines 116-128): if the last message is loading, convert it in place into
the fixed error response with an empty sources list; `setIsLoading(false)`. -/
def sendMessageCatch (st : ChatState) : ChatState :=
  { messages :=
      match st.messages.getLast? with
      | some lastMessage =>
          if lastMessage.isLoading then
            st.messages.dropLast ++
              [{ lastMessage with
                 isLoading := false
                 response := some "Sorry, I encountered an error while processing your request. Please try again."
                 sources := some [] }]
          else st.messages
      | none => st.messages
    isLoading := false }

/-- Embedding of `useChat.sendMessage` (`src/unnamed/part_002`,
lines 56-130). Nondeterministic inputs are explicit: `fresh` (generated
ids/timestamps), `wsConnected` (`wsService && wsService.isConnected()`),
`restResult` (outcome of the awaited REST call; `Except.error` models a
thrown error caught by the catch branch), `sessionId` (hook state). Returns
the post-state and the transport calls made. -/
def useChat.sendMessage (fresh : FreshTurnIds) (wsConnected : Bool)
    (restResult : Except Unit ChatResponse) (sessionId : String)
    (message : String) (includeWebSearch includeLocalSearch : Bool)
    (st : ChatState) : ChatState × List TransportCall :=
  if jsTrim message = "" then (st, [])
  else
    let st1 : ChatState :=
      { messages := appendTurnMessages fresh message st.messages
        isLoading := true }
    if wsConnected then
      (st1,
       [TransportCall.wsSend
          { type := "chat"
            message := jsTrim message
            include_web_search := includeWebSearch
            include_local_search := includeLocalSearch }])
    else
      let req : ChatRequest :=
        { message := jsTrim message
          session_id := some sessionId
          include_web_search := includeWebSearch
          include_local_search := includeLocalSearch }
      match restResult with
      | Except.ok response => (restResponseHandler response st1, [TransportCall.restPost req])
      | Except.error _ => (sendMessageCatch st1, [TransportCall.restPost req])

/-- Dispatch of the `useChat` WebSocket `onMessage` callback
(`src/unnamed/part_002`, lines 24-43): only a message whose `type` is
`"response"` triggers the completion update, with the payload taken from
its `data` field; any other message leaves the state unchanged. (A
`"response"` frame with no `data` payload throws inside the handler; the
`WebSocketService.onmessage` try/catch swallows the throw, so the state is
likewise unchanged.) -/
def useChat.onWsMessage (msg : WsIncoming) (st : ChatState) : ChatState :=
  if msg.type = "response" then
    match msg.data with
    | some response => wsResponseHandler response st
    | none => st
  else st

/-- Search settings state of `ChatInterface` (`src/unnamed/part_000`,
lines 16-19). -/
structure SearchSettings where
  includeWebSearch : Bool
  includeLocalSearch : Bool
  deriving Repr, DecidableEq

/-- State visible to `ChatInterface.handleSubmit` (`src/unnamed/part_000`):
the input box, the settings, and the `useChat` hook state. -/
structure ChatInterfaceState where
  input : String
  settings : SearchSettings
  chat : ChatState
  deriving Repr, DecidableEq

/-- Embedding of `ChatInterface.handleSubmit` (`src/unnamed/part_000`,
lines 35-47): rejected outright when the trimmed input is empty or
`isLoading` is set; otherwise clears the input box and runs
`useChat.sendMessage` on the trimmed text with the current settings. -/
def ChatInterface.handleSubmit (fresh : FreshTurnIds) (wsConnected : Bool)
    (restResult : Except Unit ChatResponse) (sessionId : String)
    (st : ChatInterfaceState) : ChatInterfaceState × List TransportCall :=
  if jsTrim st.input = "" || st.chat.isLoading then (st, [])
  else
    let message := jsTrim st.input
    let r := useChat.sendMessage fresh wsConnected restResult sessionId
      message st.settings.includeWebSearch st.settings.includeLocalSearch st.chat
    ({ st with input := "", chat := r.1 }, r.2)

/-- Message record of the plain `App` component
(`src/frontend/src/App.tsx`, lines 5-10). -/
structure AppMessage where
  id : Nat
  text : String
  isUser : Bool
  sources : Option (List Source) := none
  deriving Repr, DecidableEq

/-- State of the plain `App` component (`src/frontend/src/App.tsx`). -/
structure AppState where
  messages : List AppMessage
  input : String
  loading : Bool
  deriving Repr, DecidableEq

/-- Embedding of `App.sendMessage` (`src/frontend/src/App.tsx`,
lines 17-56): rejected when the trimmed input is empty or `loading` is
set; otherwise appends the user message, posts
`{message, include_web_search: true, include_local_search: true}` (no
session id), and appends either the AI answer or the fixed error message. -/
def App.sendMessage (now : Nat) (restResult : Except Unit ChatResponse)
    (st : AppState) : AppState × List TransportCall :=
  if jsTrim st.input = "" || st.loading then (st, [])
  else
    let userMessage : AppMessage := { id := now, text := st.input, isUser := true }
    let st1 : AppState :=
      { messages := st.messages ++ [userMessage], input := "", loading := true }
    let req : ChatRequest :=
      { message := st.input
        session_id := none
        include_web_search := true
        include_local_search := true }
    match restResult with
    | Except.ok response =>
        ({ st1 with
           messages := st1.messages ++
             [{ id := now + 1
                text := response.response
                isUser := false
                sources := some response.sources }]
           loading := false },
         [TransportCall.restPost req])
    | Except.error _ =>
        ({ st1 with
           messages := st1.messages ++
             [{ id := now + 1
                text := "Sorry, I encountered an error. Please try again."
                isUser := false }]
           loading := false },
         [TransportCall.restPost req])

/-- Reconnection state of `WebSocketService`
(`src/frontend/src/services/api.ts`, lines 95-99): the private
`reconnectAttempts` counter. -/
structure WebSocketServiceState where
  reconnectAttempts : Nat
  deriving Repr, DecidableEq

/-- The `maxReconnectAttempts` field of `WebSocketService`
(`src/frontend/src/services/api.ts`, line 98). -/
def maxReconnectAttempts : Nat := 5

/-- Embedding of `WebSocketService.attemptReconnect`
(`src/frontend/src/services/api.ts`, lines 137-148): while the counter is
below `maxReconnectAttempts`, increment it and schedule a `connect`
(returned flag `true`); otherwise do nothing. -/
def attemptReconnect (s : WebSocketServiceState) : WebSocketServiceState × Bool :=
  if s.reconnectAttempts < maxReconnectAttempts then
    ({ reconnectAttempts := s.reconnectAttempts + 1 }, true)
  else (s, false)

/-- The `onopen` handler (`src/frontend/src/services/api.ts`,
lines 108-111): a successful connection resets the counter. -/
def wsOnOpen (_s : WebSocketServiceState) : WebSocketServiceState :=
  { reconnectAttempts := 0 }

/-- The `onclose` handler (`src/frontend/src/services/api.ts`,
lines 122-125): a closed channel triggers `attemptReconnect`. -/
def wsOnClose (s : WebSocketServiceState) : WebSocketServiceState × Bool :=
  attemptReconnect s

/-- A run of `n` consecutive channel-closed events with no intervening
successful open, returning the final state and the number of connection
attempts the service initiated along the way. -/
def closeTrace : Nat → WebSocketServiceState → WebSocketServiceState × Nat
  | 0, s => (s, 0)
  | n + 1, s =>
      let r := wsOnClose s
      let rest := closeTrace n r.1
      (rest.1, (if r.2 then 1 else 0) + rest.2)

/-- A dropped file as seen by `FileUpload.onDrop` (`src/unnamed/part_000`):
its name and byte size. -/
structure JsFile where
  name : String
  size : Nat
  deriving Repr, DecidableEq

/-- Status of an upload-progress entry (`src/unnamed/part_000`,
lines 248-253). -/
inductive UploadStatus where
  | uploading
  | completed
  | error
  deriving Repr, DecidableEq

/-- An entry of the upload-progress list (`src/unnamed/part_000`,
lines 248-253). -/
structure UploadProgress where
  filename : String
  progress : Nat
  status : UploadStatus
  error : Option String := none
  deriving Repr, DecidableEq

/-- Observable effects of `FileUpload.onDrop`: toasts and calls to
`fileService.uploadFile`. -/
inductive DropEffect where
  | toastError (message : String)
  | toastSuccess (message : String)
  | uploadFileCall (filename : String)
  deriving Repr, DecidableEq

/-- Per-file body of the `FileUpload.onDrop` loop (`src/unnamed/part_000`,
lines 259-311): an oversized file (strictly more than 50 MB) only raises an
error toast; otherwise the file is added to the progress list, the upload
service is called (`uploadResult` gives its outcome), and the entry is
marked completed or errored. Progress-callback updates during the upload
are elided: they only rewrite the `progress` field of matching entries. -/
def FileUpload.processFile (uploadResult : JsFile → Except String Unit)
    (uploads : List UploadProgress) (file : JsFile) :
    List UploadProgress × List DropEffect :=
  if file.size > 50 * 1024 * 1024 then
    (uploads,
     [DropEffect.toastError ("File " ++ file.name ++ " is too large. Maximum size is 50MB.")])
  else
    let uploads1 := uploads ++
      [{ filename := file.name, progress := 0, status := UploadStatus.uploading }]
    match uploadResult file with
    | Except.ok _ =>
        (uploads1.map fun u =>
           if u.filename = file.name then
             { u with status := UploadStatus.completed, progress := 100 }
           else u,
         [DropEffect.uploadFileCall file.name,
          DropEffect.toastSuccess (file.name ++ " uploaded successfully!")])
    | Except.error e =>
        (uploads1.map fun u =>
           if u.filename = file.name then
             { u with status := UploadStatus.error, error := some e }
           else u,
         [DropEffect.uploadFileCall file.name,
          DropEffect.toastError ("Failed to upload " ++ file.name)])

/-- Embedding of `FileUpload.onDrop` (`src/unnamed/part_000`,
lines 258-312): sequential loop over the accepted files. -/
def FileUpload.onDrop (uploadResult : JsFile → Except String Unit)
    (uploads : List UploadProgress) :
    List JsFile → List UploadProgress × List DropEffect
  | [] => (uploads, [])
  | file :: rest =>
      let r := FileUpload.processFile uploadResult uploads file
      let r2 := FileUpload.onDrop uploadResult r.1 rest
      (r2.1, r.2 ++ r2.2)

/-- Helper: the citation labels produced by enumerating from `n` and adding
one are the contiguous range starting at `n + 1`. -/
theorem enumFrom_map_index {α : Type} (l : List α) :
    ∀ n : Nat, (List.enumFrom n l).map (fun p => p.1 + 1) = List.range' (n + 1) l.length := by
  induction l with
  | nil => intro n; rfl
  | cons a l ih =>
      intro n
      simp only [List.enumFrom, List.map_cons, List.length_cons, List.range']
      rw [ih (n + 1)]

/-- CLAIM C2. Chat endpoint contract: `chatService.sendMessage` posts
exactly the body `{message, session_id, include_web_search,
include_local_search}` to the chat endpoint and returns the endpoint's
response unchanged; a `ChatResponse` consists exactly of
`{response, sources, session_id, timestamp}` and a `Source` exactly of
`{title, url, domain, type, snippet}`. -/
theorem chat_endpoint_contract (post : ChatRequest → ChatResponse)
    (message : String) (sessionId : Option String)
    (includeWebSearch includeLocalSearch : Bool) :
    chatService.sendMessage post message sessionId includeWebSearch includeLocalSearch =
      post { message := message
             session_id := sessionId
             include_web_search := includeWebSearch
             include_local_search := includeLocalSearch }
    ∧ (∀ r : ChatResponse,
        r = { response := r.response, sources := r.sources,
              session_id := r.session_id, timestamp := r.timestamp })
    ∧ (∀ s : Source,
        s = { title := s.title, url := s.url, domain := s.domain,
              type := s.type, snippet := s.snippet }) :=
  ⟨rfl, fun _ => rfl, fun _ => rfl⟩

/-- CLAIM C4. Transport-mode equivalence: given the same response payload,
the WebSocket response handler and the synchronous REST response handler
perform the identical conversation-state update. -/
theorem transport_mode_equivalence (response : ChatResponse) (st : ChatState) :
    wsResponseHandler response st = restResponseHandler response st := rfl

/-- CLAIM C7. Citation-index ordering: both source-list renderers label the
N sources with exactly the indices 1..N in list order, and the i-th
rendered entry carries the i-th source of the response. -/
theorem citation_index_ordering (sources : List Source) :
    (ChatMessageComponent.renderSourceCards sources).map SourceCard.index =
      List.range' 1 sources.length
    ∧ (ChatMessageComponent.renderSourceCards sources).map SourceCard.source = sources
    ∧ (App.renderSourceLinks sources).map Prod.fst = List.range' 1 sources.length
    ∧ (App.renderSourceLinks sources).map Prod.snd = sources := by
  refine ⟨?_, ?_, ?_, ?_⟩
  · show (List.map _ (List.enumFrom 0 sources)).map _ = _
    rw [List.map_map]
    exact enumFrom_map_index sources 0
  · show (List.map _ (List.enumFrom 0 sources)).map _ = _
    rw [List.map_map]
    exact List.enum_map_snd sources
  · show (List.map _ (List.enumFrom 0 sources)).map _ = _
    rw [List.map_map]
    exact enumFrom_map_index sources 0
  · show (List.map _ (List.enumFrom 0 sources)).map _ = _
    rw [List.map_map]
    exact List.enum_map_snd sources

/-- CLAIM C1. Single-turn invariant: while the in-flight loading flag of a
session is set, a submission is rejected without starting a turn — the
state (including the message history) is returned unchanged and no
transport call is made. Holds for `ChatInterface.handleSubmit` and for
`App.sendMessage`. -/
theorem single_turn_invariant (fresh : FreshTurnIds) (wsConnected : Bool)
    (restResult restResult2 : Except Unit ChatResponse) (sessionId : String)
    (st : ChatInterfaceState) (now : Nat) (ast : AppState)
    (h1 : st.chat.isLoading = true) (h2 : ast.loading = true) :
    ChatInterface.handleSubmit fresh wsConnected restResult sessionId st = (st, [])
    ∧ App.sendMessage now restResult2 ast = (ast, []) := by
  constructor
  · simp [ChatInterface.handleSubmit, h1]
  · simp [App.sendMessage, h2]

/-- Witness for C1 at a concrete in-flight state. -/
theorem single_turn_invariant_witness :
    ChatInterface.handleSubmit ⟨"u1", "a1", 3, 4⟩ false (Except.error ()) "s1"
        { input := "hi", settings := ⟨true, true⟩,
          chat := { messages := [], isLoading := true } } =
      ({ input := "hi", settings := ⟨true, true⟩,
         chat := { messages := [], isLoading := true } }, [])
    ∧ App.sendMessage 7 (Except.error ())
        { messages := [], input := "hi", loading := true } =
      ({ messages := [], input := "hi", loading := true }, []) :=
  single_turn_invariant ⟨"u1", "a1", 3, 4⟩ false (Except.error ()) (Except.error ())
    "s1" _ 7 _ rfl rfl

/-- CLAIM C5. Empty-input rejection: a query whose text trims to the empty
string starts no turn — `useChat.sendMessage` returns the state unchanged
with no transport call, and `ChatInterface.handleSubmit` likewise rejects
an input that trims to empty. -/
theorem empty_input_rejection (fresh : FreshTurnIds) (wsConnected : Bool)
    (restResult : Except Unit ChatResponse) (sessionId message : String)
    (includeWebSearch includeLocalSearch : Bool) (st : ChatState)
    (ci : ChatInterfaceState)
    (h : jsTrim message = "") (hci : jsTrim ci.input = "") :
    useChat.sendMessage fresh wsConnected restResult sessionId message
      includeWebSearch includeLocalSearch st = (st, [])
    ∧ ChatInterface.handleSubmit fresh wsConnected restResult sessionId ci = (ci, []) := by
  constructor
  · simp [useChat.sendMessage, h]
  · simp [ChatInterface.handleSubmit, hci]

/-- Witness for C5 on a whitespace-only query. -/
theorem empty_input_rejection_witness :
    useChat.sendMessage ⟨"u1", "a1", 3, 4⟩ true (Except.error ()) "s1" "   "
      true true { messages := [], isLoading := false } =
      ({ messages := [], isLoading := false }, [])
    ∧ ChatInterface.handleSubmit ⟨"u1", "a1", 3, 4⟩ true (Except.error ()) "s1"
        { input := "  ", settings := ⟨true, true⟩,
          chat := { messages := [], isLoading := false } } =
      ({ input := "  ", settings := ⟨true, true⟩,
         chat := { messages := [], isLoading := false } }, []) :=
  empty_input_rejection ⟨"u1", "a1", 3, 4⟩ true (Except.error ()) "s1" "   "
    true true { messages := [], isLoading := false } _ (by decide) (by decide)

/-- Sample payload used by concrete witnesses. -/
def sampleResponse : ChatResponse :=
  { response := "answer"
    sources := [{ title := "T", url := "https://x.y/a", domain := "x.y",
                  type := "web", snippet := some "sn" }]
    session_id := "s1"
    timestamp := "2025-01-01" }

/-- Helper: effect of the REST response branch on a state whose message
list ends in a loading placeholder. -/
theorem restResponseHandler_append (response : ChatResponse)
    (prev : List ChatMessage) (u a : ChatMessage) (b : Bool)
    (ha : a.isLoading = true) :
    restResponseHandler response { messages := prev ++ [u, a], isLoading := b } =
      { messages := prev ++ [u,
          { a with isLoading := false
                   response := some response.response
                   sources := some response.sources }]
        isLoading := false } := by
  unfold restResponseHandler
  rw [show prev ++ [u, a] = (prev ++ [u]) ++ [a] by simp]
  rw [List.getLast?_concat, List.dropLast_concat]
  simp [ha]

/-- Helper: effect of the catch branch on a state whose message list ends
in a loading placeholder. -/
theorem sendMessageCatch_append (prev : List ChatMessage) (u a : ChatMessage)
    (b : Bool) (ha : a.isLoading = true) :
    sendMessageCatch { messages := prev ++ [u, a], isLoading := b } =
      { messages := prev ++ [u,
          { a with isLoading := false
                   response := some "Sorry, I encountered an error while processing your request. Please try again."
                   sources := some [] }]
        isLoading := false } := by
  unfold sendMessageCatch
  rw [show prev ++ [u, a] = (prev ++ [u]) ++ [a] by simp]
  rw [List.getLast?_concat, List.dropLast_concat]
  simp [ha]

/-- Helper: the catch branch never changes the number of messages. -/
theorem sendMessageCatch_length (st : ChatState) :
    (sendMessageCatch st).messages.length = st.messages.length := by
  unfold sendMessageCatch
  cases hl : st.messages.getLast? with
  | none => rfl
  | some lastMessage =>
      dsimp only
      by_cases hload : lastMessage.isLoading = true
      · rw [if_pos hload]
        have hne : st.messages ≠ [] := by
          intro he
          rw [he] at hl
          simp at hl
        have hpos : 0 < st.messages.length := List.length_pos.mpr hne
        simp only [List.length_append, List.length_dropLast,
          List.length_cons, List.length_nil]
        omega
      · rw [if_neg hload]

/-- CLAIM C3. Persistent channel protocol: when the WebSocket is connected,
`useChat.sendMessage` sends exactly
`{type: "chat", message, include_web_search, include_local_search}` (and
nothing else); an incoming channel message triggers the completed-answer
update exactly when its `type` equals `"response"`, with the payload taken
from its `data` field, and leaves the state unchanged otherwise. -/
theorem persistent_channel_protocol (fresh : FreshTurnIds)
    (sessionId message : String) (includeWebSearch includeLocalSearch : Bool)
    (restResult : Except Unit ChatResponse) (st : ChatState)
    (msg : WsIncoming) (payload : ChatResponse)
    (h : jsTrim message ≠ "") :
    (useChat.sendMessage fresh true restResult sessionId message
        includeWebSearch includeLocalSearch st).2 =
      [TransportCall.wsSend
        { type := "chat"
          message := jsTrim message
          include_web_search := includeWebSearch
          include_local_search := includeLocalSearch }]
    ∧ (msg.type ≠ "response" → useChat.onWsMessage msg st = st)
    ∧ (msg.type = "response" → msg.data = some payload →
        useChat.onWsMessage msg st = wsResponseHandler payload st) := by
  refine ⟨?_, ?_, ?_⟩
  · simp [useChat.sendMessage, h]
  · intro hne
    simp [useChat.onWsMessage, hne]
  · intro he hd
    simp [useChat.onWsMessage, he, hd]

/-- Witness for C3: the concrete frame sent for query `" q "`, a `"status"`
frame ignored, and a `"response"` frame completing the turn. -/
theorem persistent_channel_protocol_witness :
    (useChat.sendMessage ⟨"u1", "a1", 3, 4⟩ true (Except.error ()) "s1" " q "
        true false { messages := [], isLoading := false }).2 =
      [TransportCall.wsSend
        { type := "chat", message := jsTrim " q ",
          include_web_search := true, include_local_search := false }]
    ∧ useChat.onWsMessage { type := "status" } { messages := [], isLoading := false } =
        { messages := [], isLoading := false }
    ∧ useChat.onWsMessage { type := "response", data := some sampleResponse }
        { messages := [], isLoading := false } =
      wsResponseHandler sampleResponse { messages := [], isLoading := false } := by
  have h1 := persistent_channel_protocol ⟨"u1", "a1", 3, 4⟩ "s1" " q " true false
    (Except.error ()) { messages := [], isLoading := false }
    { type := "status" } sampleResponse (by decide)
  have h2 := persistent_channel_protocol ⟨"u1", "a1", 3, 4⟩ "s1" " q " true false
    (Except.error ()) { messages := [], isLoading := false }
    { type := "response", data := some sampleResponse } sampleResponse (by decide)
  exact ⟨h1.1, h1.2.1 (by decide), h2.2.2 rfl rfl⟩

/-- Helper: once the reconnect counter has reached the bound, close events
change nothing and no connection attempt is ever initiated. -/
theorem closeTrace_saturated (n : Nat) (s : WebSocketServiceState)
    (h : maxReconnectAttempts ≤ s.reconnectAttempts) :
    closeTrace n s = (s, 0) := by
  induction n with
  | zero => rfl
  | succ n ih =>
      simp [closeTrace, wsOnClose, attemptReconnect, Nat.not_lt.mpr h, ih]

/-- Helper: over any run of consecutive close events, the number of
reconnection attempts is bounded by what remains of the budget. -/
theorem closeTrace_le (n : Nat) :
    ∀ s : WebSocketServiceState,
      (closeTrace n s).2 ≤ maxReconnectAttempts - s.reconnectAttempts := by
  induction n with
  | zero => intro s; simp [closeTrace]
  | succ n ih =>
      intro s
      by_cases h : s.reconnectAttempts < maxReconnectAttempts
      · have hrec := ih { reconnectAttempts := s.reconnectAttempts + 1 }
        simp only [closeTrace, wsOnClose, attemptReconnect, if_pos h]
        simp only [maxReconnectAttempts] at h hrec ⊢
        simp at hrec ⊢
        omega
      · have hsat := closeTrace_saturated n s (Nat.not_lt.mp h)
        simp [closeTrace, wsOnClose, attemptReconnect, h, hsat]

/-- CLAIM C6. Bounded reconnection: over any sequence of channel-close
events the service initiates at most
`maxReconnectAttempts - reconnectAttempts` (so at most 5) reconnects, and
once the bound is reached no further connection attempt is ever made. -/
theorem bounded_reconnection (n : Nat) (s : WebSocketServiceState) :
    (closeTrace n s).2 ≤ maxReconnectAttempts - s.reconnectAttempts
    ∧ (maxReconnectAttempts ≤ s.reconnectAttempts →
        closeTrace n s = (s, 0) ∧ (attemptReconnect s).2 = false) := by
  refine ⟨closeTrace_le n s, fun h => ⟨closeTrace_saturated n s h, ?_⟩⟩
  simp [attemptReconnect, Nat.not_lt.mpr h]

/-- Witness for C6: nine straight closes from a fresh counter stay within
the bound of 5; at the bound, closes do nothing and no connect happens. -/
theorem bounded_reconnection_witness :
    (closeTrace 9 { reconnectAttempts := 0 }).2 ≤
      maxReconnectAttempts - ({ reconnectAttempts := 0 } : WebSocketServiceState).reconnectAttempts
    ∧ closeTrace 3 { reconnectAttempts := 5 } = ({ reconnectAttempts := 5 }, 0)
    ∧ (attemptReconnect { reconnectAttempts := 5 }).2 = false :=
  ⟨(bounded_reconnection 9 { reconnectAttempts := 0 }).1,
   (bounded_reconnection 3 { reconnectAttempts := 5 }).2 (by decide)⟩

/-- CLAIM C8. Frame effect of accepting a query: on a non-empty (after
trimming) query, `useChat.sendMessage` appends exactly two entries — the
user message carrying the trimmed text followed by the loading assistant
placeholder — every previously present message is unchanged, and in
streaming mode the resulting list is exactly that append. -/
theorem accepted_query_frame_effect (fresh : FreshTurnIds) (wsConnected : Bool)
    (restResult : Except Unit ChatResponse) (sessionId message : String)
    (includeWebSearch includeLocalSearch : Bool) (st : ChatState)
    (h : jsTrim message ≠ "") :
    appendTurnMessages fresh message st.messages =
      st.messages ++ [mkUserMessage fresh message, mkAiMessage fresh]
    ∧ mkUserMessage fresh message =
        { id := fresh.userId, message := jsTrim message,
          timestamp := fresh.userTimestamp, isUser := true,
          response := none, sources := none, isLoading := false }
    ∧ mkAiMessage fresh =
        { id := fresh.aiId, message := "", timestamp := fresh.aiTimestamp,
          isUser := false, response := none, sources := none, isLoading := true }
    ∧ (useChat.sendMessage fresh true restResult sessionId message
         includeWebSearch includeLocalSearch st).1.messages =
        appendTurnMessages fresh message st.messages
    ∧ ((useChat.sendMessage fresh wsConnected restResult sessionId message
         includeWebSearch includeLocalSearch st).1.messages).take st.messages.length =
        st.messages
    ∧ ((useChat.sendMessage fresh wsConnected restResult sessionId message
         includeWebSearch includeLocalSearch st).1.messages).length =
        st.messages.length + 2 := by
  have hshape : ∃ x y : ChatMessage,
      (useChat.sendMessage fresh wsConnected restResult sessionId message
        includeWebSearch includeLocalSearch st).1.messages = st.messages ++ [x, y] := by
    unfold useChat.sendMessage
    rw [if_neg h]
    cases wsConnected with
    | true =>
        exact ⟨mkUserMessage fresh message, mkAiMessage fresh,
          by simp [appendTurnMessages]⟩
    | false =>
        cases restResult with
        | ok response =>
            refine ⟨mkUserMessage fresh message,
              { mkAiMessage fresh with
                isLoading := false
                response := some response.response
                sources := some response.sources }, ?_⟩
            have e := restResponseHandler_append response st.messages
              (mkUserMessage fresh message) (mkAiMessage fresh) true rfl
            simpa [appendTurnMessages] using congrArg ChatState.messages e
        | error u =>
            refine ⟨mkUserMessage fresh message,
              { mkAiMessage fresh with
                isLoading := false
                response := some "Sorry, I encountered an error while processing your request. Please try again."
                sources := some [] }, ?_⟩
            have e := sendMessageCatch_append st.messages
              (mkUserMessage fresh message) (mkAiMessage fresh) true rfl
            simpa [appendTurnMessages] using congrArg ChatState.messages e
  obtain ⟨x, y, hxy⟩ := hshape
  refine ⟨rfl, rfl, rfl, ?_, ?_, ?_⟩
  · simp [useChat.sendMessage, h]
  · rw [hxy]
    exact List.take_left _ _
  · rw [hxy]
    simp

/-- Witness for C8 at the concrete query `" hi "` from the empty history. -/
theorem accepted_query_frame_effect_witness :
    (useChat.sendMessage ⟨"u1", "a1", 3, 4⟩ true (Except.ok sampleResponse) "s1"
        " hi " true true { messages := [], isLoading := false }).1.messages =
      appendTurnMessages ⟨"u1", "a1", 3, 4⟩ " hi " []
    ∧ ((useChat.sendMessage ⟨"u1", "a1", 3, 4⟩ false (Except.ok sampleResponse) "s1"
        " hi " true true { messages := [], isLoading := false }).1.messages).length =
      ([] : List ChatMessage).length + 2 := by
  have h1 := accepted_query_frame_effect ⟨"u1", "a1", 3, 4⟩ true
    (Except.ok sampleResponse) "s1" " hi " true true
    { messages := [], isLoading := false } (by decide)
  have h2 := accepted_query_frame_effect ⟨"u1", "a1", 3, 4⟩ false
    (Except.ok sampleResponse) "s1" " hi " true true
    { messages := [], isLoading := false } (by decide)
  exact ⟨h1.2.2.2.1, h2.2.2.2.2.2⟩

/-- CLAIM C9. Error-path atomicity: when the synchronous chat request
throws, `useChat.sendMessage` runs the catch handler on the appended state;
the catch handler never changes the message-list length, always clears the
loading flag, and converts a trailing loading placeholder in place into the
fixed error response with an empty sources list. -/
theorem error_path_atomicity (fresh : FreshTurnIds) (sessionId message : String)
    (includeWebSearch includeLocalSearch : Bool) (st : ChatState)
    (h : jsTrim message ≠ "") :
    (useChat.sendMessage fresh false (Except.error ()) sessionId message
       includeWebSearch includeLocalSearch st).1 =
      sendMessageCatch { messages := appendTurnMessages fresh message st.messages
                         isLoading := true }
    ∧ (∀ st' : ChatState, (sendMessageCatch st').messages.length = st'.messages.length)
    ∧ (∀ st' : ChatState, (sendMessageCatch st').isLoading = false)
    ∧ (∀ (st' : ChatState) (lastMessage : ChatMessage),
        st'.messages.getLast? = some lastMessage → lastMessage.isLoading = true →
        (sendMessageCatch st').messages =
          st'.messages.dropLast ++
            [{ lastMessage with
               isLoading := false
               response := some "Sorry, I encountered an error while processing your request. Please try again."
               sources := some [] }])
    ∧ (useChat.sendMessage fresh false (Except.error ()) sessionId message
         includeWebSearch includeLocalSearch st).1.isLoading = false := by
  refine ⟨?_, sendMessageCatch_length, fun _ => rfl, ?_, ?_⟩
  · simp [useChat.sendMessage, h]
  · intro st' lastMessage hl hload
    unfold sendMessageCatch
    rw [hl]
    simp [hload]
  · simp only [useChat.sendMessage, if_neg h]
    rfl

/-- Witness for C9 at the concrete query `"hi"` from the empty history. -/
theorem error_path_atomicity_witness :
    (useChat.sendMessage ⟨"u1", "a1", 1, 2⟩ false (Except.error ()) "s1" "hi"
        true true { messages := [], isLoading := false }).1 =
      sendMessageCatch { messages := appendTurnMessages ⟨"u1", "a1", 1, 2⟩ "hi" []
                         isLoading := true }
    ∧ (sendMessageCatch { messages := appendTurnMessages ⟨"u1", "a1", 1, 2⟩ "hi" []
                          isLoading := true }).messages.length =
      (appendTurnMessages ⟨"u1", "a1", 1, 2⟩ "hi" []).length
    ∧ (useChat.sendMessage ⟨"u1", "a1", 1, 2⟩ false (Except.error ()) "s1" "hi"
        true true { messages := [], isLoading := false }).1.isLoading = false := by
  have hh := error_path_atomicity ⟨"u1", "a1", 1, 2⟩ "s1" "hi" true true
    { messages := [], isLoading := false } (by decide)
  exact ⟨hh.1, hh.2.1 _, hh.2.2.2.2⟩

/-- CLAIM C10. Upload size limit: a dropped file strictly larger than
`50*1024*1024` bytes never reaches the upload service and is never added to
the upload-progress list — it only raises a size-error toast — and the
remaining files are processed exactly as if it were absent. -/
theorem upload_size_limit (uploadResult : JsFile → Except String Unit)
    (uploads : List UploadProgress) (file : JsFile) (rest : List JsFile)
    (h : file.size > 50 * 1024 * 1024) :
    FileUpload.processFile uploadResult uploads file =
      (uploads,
       [DropEffect.toastError ("File " ++ file.name ++ " is too large. Maximum size is 50MB.")])
    ∧ FileUpload.onDrop uploadResult uploads (file :: rest) =
        ((FileUpload.onDrop uploadResult uploads rest).1,
         DropEffect.toastError ("File " ++ file.name ++ " is too large. Maximum size is 50MB.") ::
           (FileUpload.onDrop uploadResult uploads rest).2) := by
  have h1 : FileUpload.processFile uploadResult uploads file =
      (uploads,
       [DropEffect.toastError ("File " ++ file.name ++ " is too large. Maximum size is 50MB.")]) := by
    unfold FileUpload.processFile
    rw [if_pos h]
  refine ⟨h1, ?_⟩
  simp only [FileUpload.onDrop, h1, List.singleton_append]

/-- Witness for C10 on a 50MB+1 file with an upload service that would
succeed. -/
theorem upload_size_limit_witness :
    FileUpload.processFile (fun _ => Except.ok ()) [] ⟨"big.pdf", 52428801⟩ =
      ([], [DropEffect.toastError ("File " ++ "big.pdf" ++ " is too large. Maximum size is 50MB.")])
    ∧ FileUpload.onDrop (fun _ => Except.ok ()) [] [⟨"big.pdf", 52428801⟩] =
      ((FileUpload.onDrop (fun _ => Except.ok ()) [] []).1,
       DropEffect.toastError ("File " ++ "big.pdf" ++ " is too large. Maximum size is 50MB.") ::
         (FileUpload.onDrop (fun _ => Except.ok ()) [] []).2) :=
  upload_size_limit (fun _ => Except.ok ()) [] ⟨"big.pdf", 52428801⟩ [] (by decide)

end MedicalChat
